import Mathlib

/-!
Shallow embedding of the `clip` package's single module `src/clip/src/clip.py`:
a client wrapper holding configuration and process-wide token state, with three
operations translated from the source: construction (`Clip.init`), token refresh
(`Clip.refreshToken`, the source's `_refresh_token`), token retrieval
(`Clip.get_bearer_token`) and `Clip.lookup`.

Modelling conventions:
* The process environment (`os.environ`) is an association list of strings;
  `Env.set` shadows, `Env.get` takes the first binding.
* Wall-clock time is a natural number of milliseconds on one absolute timeline;
  `datetime.now()` is the parameter `now`.  `datetime.isoformat` is modelled as
  an injective rendering of that number (claims only depend on the timeline
  semantics and on malformed strings failing to parse), `datetime(2010, 1, 1)`
  as the corresponding constant `date2010`.
* JSON values (`requests.Response.json()` results) are the inductive `Json`.
  Python dynamic values reachable by the translated code (`self.expires_in_time`
  may hold a string from the environment, an int, or the result of a Python
  `* 1000` on a decoded JSON value) are also represented as `Json`.
* The HTTP layer (`requests.get` / `requests.post`) is a transport oracle
  mapping a request to either a raised transport exception, or a response whose
  body may fail to decode.  Each operation returns the list of requests it
  issued, so counting outbound calls is part of the model.
* A Python exception raised and caught inside the translated function is
  modelled by the corresponding `Except.error` branch being mapped to the
  handler's behaviour; an exception escaping the function shows up as an
  `Except.error` result of the operation itself.
* `print` diagnostics are collected in a list of log strings.
-/

set_option autoImplicit false

namespace ClipSpec

/-- Python exception kinds distinguished by the translated code paths. -/
inductive PyErr where
  | typeError
  | valueError
  | keyError
  | nameError
  | attributeError
  deriving DecidableEq, Repr

/-- JSON values, also used for the Python dynamic values the module manipulates. -/
inductive Json where
  | null
  | bool (b : Bool)
  | num (n : Int)
  | str (s : String)
  | arr (elems : List Json)
  | obj (fields : List (String × Json))
  deriving Repr, BEq

/-- Process environment: `os.environ` as an association list, first binding wins. -/
def Env : Type := List (String × String)

instance : BEq Env := inferInstanceAs (BEq (List (String × String)))

instance : Repr Env := inferInstanceAs (Repr (List (String × String)))

instance : DecidableEq Env := inferInstanceAs (DecidableEq (List (String × String)))

/-- Modelled from `os.environ.get` / `os.getenv`: first binding for the key. -/
def Env.get (e : Env) (k : String) : Option String :=
  match e.find? (fun p => p.1 = k) with
  | some p => some p.2
  | none => none

/-- Modelled from `os.environ[k] = v`: the new binding shadows earlier ones. -/
def Env.set (e : Env) (k : String) (v : String) : Env :=
  (k, v) :: e

/-- Python truthiness of a decoded JSON value. -/
def Json.truthy : Json → Bool
  | .null => false
  | .bool b => b
  | .num n => n ≠ 0
  | .str s => s ≠ ""
  | .arr xs => !xs.isEmpty
  | .obj fs => !fs.isEmpty

/-- Python `dict.get` on a decoded JSON value: `AttributeError` when the value
is not an object, `None` (here `Option.none`) when the key is absent. -/
def Json.dictGet : Json → String → Except PyErr (Option Json)
  | .obj fs, k =>
      match fs.find? (fun p => p.1 = k) with
      | some p => .ok (some p.2)
      | none => .ok none
  | _, _ => .error .attributeError

/-- Python subscript `value[k]` with a string key: `KeyError` when the key is
absent from an object, `TypeError` on any non-object. -/
def Json.subscr : Json → String → Except PyErr Json
  | .obj fs, k =>
      match fs.find? (fun p => p.1 = k) with
      | some p => .ok p.2
      | none => .error .keyError
  | _, _ => .error .typeError

/-- Python `str(value)` for the values `self.expires_in_time` can hold.  Only
the int and string cases are exercised by the module; the remaining renderings
follow Python `str` on the corresponding literals. -/
def Json.pyStr : Json → String
  | .null => "None"
  | .bool true => "True"
  | .bool false => "False"
  | .num n => toString n
  | .str s => s
  | .arr _ => "<list>"
  | .obj _ => "<dict>"

/-- Value of a nonempty run of decimal digits, `none` on any non-digit. -/
def digitsVal? : List Char → Nat → Option Nat
  | [], acc => some acc
  | c :: cs, acc =>
      if c.isDigit then digitsVal? cs (acc * 10 + (c.toNat - 48)) else none

/-- Decimal integer parsing as Python `int` applies it to a string: an
optional sign followed by digits, anything else a `ValueError`. -/
def strToInt? (s : String) : Option Int :=
  match s.toList with
  | '-' :: c :: cs => (digitsVal? (c :: cs) 0).map (fun n => -(n : Int))
  | c :: cs => (digitsVal? (c :: cs) 0).map (fun n => (n : Int))
  | [] => none

/-- Python `int(value)` as used by `get_bearer_token` on `self.expires_in_time`:
ints pass through, strings parse or raise `ValueError`, booleans coerce,
everything else raises `TypeError`. -/
def Json.pyInt : Json → Except PyErr Int
  | .num n => .ok n
  | .str s =>
      match strToInt? s with
      | some n => .ok n
      | none => .error .valueError
  | .bool b => .ok (if b then 1 else 0)
  | _ => .error .typeError

/-- Python `value * 1000` as applied to a decoded `expires_in` field: ints
multiply, strings and lists repeat, booleans coerce to ints, `None` and dicts
raise `TypeError`. -/
def Json.pyMulThousand : Json → Except PyErr Json
  | .num n => .ok (.num (n * 1000))
  | .str s => .ok (.str ((List.replicate 1000 s).foldl (fun a b => a ++ b) ""))
  | .bool b => .ok (.num (if b then 1000 else 0))
  | .arr xs => .ok (.arr ((List.replicate 1000 xs).foldl (fun a b => a ++ b) []))
  | .null => .error .typeError
  | .obj _ => .error .typeError

/-- Millisecond timestamps on the model's absolute timeline. -/
abbrev TimeMs : Type := Nat

/-- Modelled rendering of `datetime.now().isoformat()`: an injective encoding
of the millisecond timestamp (the claims depend only on the timeline semantics,
not on the concrete ISO-8601 text). -/
def isoformat (t : TimeMs) : String := "@" ++ toString t

/-- Modelled `datetime.fromisoformat`: inverts `isoformat` and fails (Python
`ValueError`) on any string not produced by it. -/
def fromisoformat (s : String) : Option TimeMs :=
  match s.toList with
  | '@' :: c :: cs => digitsVal? (c :: cs) 0
  | _ => none

/-- The constant `datetime(2010, 1, 1)` used when no token timestamp is
recorded, as milliseconds on the model timeline (2010-01-01 UTC epoch ms). -/
def date2010 : TimeMs := 1262304000000

/-- An outbound HTTP request as the module assembles it: method, URL, headers
(values optional, `requests` drops `None`-valued headers) and query parameters
(values optional, `requests` omits `None`-valued parameters). -/
structure HttpReq where
  method : String
  url : String
  headers : List (String × Option String)
  params : List (String × Option String)
  deriving Repr, BEq

/-- Result of handing a request to the transport: `netError` models `requests`
raising (connection failure), `resp none` a response whose `.json()` raises,
`resp (some j)` a response decoding to `j`.  The module never reads the status
code, so it is not part of the model. -/
inductive HttpResult where
  | netError
  | resp (body : Option Json)

/-- The transport oracle standing for the network. -/
def Transport : Type := HttpReq → HttpResult

/-- Query parameters actually sent on the wire: `requests` omits every
parameter whose value is `None` and keeps explicit empty strings. -/
def sentParams (r : HttpReq) : List (String × String) :=
  r.params.filterMap (fun p => p.2.map (fun v => (p.1, v)))

/-- Instance state of the `Clip` class.  `expires_in_time` is `Json` because
the Python attribute holds a string (seeded from the environment), an int (the
default 300000), or the result of `expires_in * 1000`. -/
structure Clip where
  bearer_token : Option String
  expires_in_time : Json
  token_timestamp : Option String
  clip_batch_url : String
  clip_lookup_url : String
  token_credentials : Option String
  authorization_url : String
  deriving Repr, BEq

/-- Constructor arguments of `Clip.__init__` with the source's defaults. -/
structure InitArgs where
  token_credentials : Option String := none
  authorization_url : String :=
    "https://api-uat.corelogic.com/edgemicro-auth-clip/token?grant_type=client_credentials"
  clip_lookup_url : String := "https://clip-lookup-uat.solutions.corelogic.com"
  clip_batch_url : String := "https://clip-batch-uat.solutions.corelogic.com"

/-- Translation of `Clip.__init__`: reads token state and configuration from
the environment (environment values take precedence over arguments), defaults
the lifetime to the int 300000 when the environment has none, and issues no
HTTP request — the second component is the list of outbound calls made during
construction, which the source leaves empty. -/
def Clip.init (env : Env) (a : InitArgs) : Clip × List HttpReq :=
  ({ bearer_token := env.get "__bearerToken"
     expires_in_time :=
       match env.get "__expiresInTime" with
       | some s => .str s
       | none => .num 300000
     token_timestamp := env.get "__tokenTimestamp"
     clip_batch_url := (env.get "clipBatchUrl").getD a.clip_batch_url
     clip_lookup_url := (env.get "clipLookupUrl").getD a.clip_lookup_url
     token_credentials :=
       match env.get "tokenCredentials" with
       | some v => some v
       | none => a.token_credentials
     authorization_url := (env.get "authorizationUrl").getD a.authorization_url },
   [])

example :
    (Clip.init [("__expiresInTime", "500")] {}).1.expires_in_time = .str "500" := by
  rfl

example : (Clip.init [] {}).1.expires_in_time = .num 300000 := by rfl

/-- Diagnostic printed by `_refresh_token` when the POST itself raises. -/
def errRefreshMsg (url : String) : String :=
  "ERROR: Refreshing token, verify the host name " ++ url ++
    " and port 443 are correct and accessible"

/-- Diagnostic printed by `_refresh_token` when processing the response raises. -/
def errConfigureMsg : String :=
  "ERROR: Configuring internal parameters, ensure the proper libraries are installed."

/-- Diagnostic printed by `get_bearer_token` when the validity check raises. -/
def errCompareMsg : String :=
  "ERROR: Failed comparing existing Bearer Token parameters"

/-- Diagnostic printed by `lookup` when the GET raises. -/
def errGetMsg (url : String) : String :=
  "ERROR: GET request failed, verify the host name " ++ url ++
    " and port 443 are correct and accessible"

/-- Diagnostic printed by `lookup` when converting the response raises. -/
def errConvertMsg : String :=
  "ERROR: Converting CLIP response to dataframe"

/-- The POST request `_refresh_token` sends to the authorization URL. -/
def refreshReq (c : Clip) : HttpReq where
  method := "POST"
  url := c.authorization_url
  headers :=
    [("Accept", some "*/*"), ("Content-Type", some "application/json"),
     ("Authorization", c.token_credentials)]
  params := []

/-- Result of `_refresh_token`: updated instance, updated environment, the
outbound requests issued, and the diagnostics printed. -/
structure RefreshRes where
  clip : Clip
  env : Env
  calls : List HttpReq
  logs : List String
  deriving Repr, BEq

/-- Translation of `Clip._refresh_token`.  The POST sits in its own
`try`/`except`; a second `try`/`except` decodes the response and performs the
state updates in source order, so an exception raised mid-sequence leaves the
environment writes already performed in place (Python `os.environ` mutations
are not rolled back) while later writes, including every instance-attribute
update, do not happen.  When the POST raised, the second block's reference to
the unbound local `response` raises `NameError`, which the second handler also
catches.  No exception escapes the function. -/
def Clip.refresh_token (now : TimeMs) (tr : Transport) (env : Env) (c : Clip) :
    RefreshRes :=
  let req := refreshReq c
  match tr req with
  | .netError =>
      ⟨c, env, [req], [errRefreshMsg c.authorization_url, errConfigureMsg]⟩
  | .resp none =>
      ⟨c, env, [req], [errConfigureMsg]⟩
  | .resp (some body) =>
      match body.dictGet "access_token" with
      | .error _ => ⟨c, env, [req], [errConfigureMsg]⟩
      | .ok tokOpt =>
        match tokOpt with
        | some (.str tok) =>
          let env1 := (env.set "__bearerToken" tok).set "__tokenTimestamp" (isoformat now)
          match body.dictGet "expires_in" with
          | .error _ => ⟨c, env1, [req], [errConfigureMsg]⟩
          | .ok eiOpt =>
            let finish (c' : Clip) : RefreshRes :=
              let env2 := env1.set "__expiresInTime" c'.expires_in_time.pyStr
              ⟨{ c' with bearer_token := env2.get "__bearerToken" }, env2, [req], []⟩
            match eiOpt with
            | some ei =>
              if ei.truthy then
                match ei.pyMulThousand with
                | .error _ => ⟨c, env1, [req], [errConfigureMsg]⟩
                | .ok v => finish { c with expires_in_time := v }
              else finish c
            | none => finish c
        | _ => ⟨c, env, [req], [errConfigureMsg]⟩

/-- Result of `get_bearer_token`: returned value (`none` both for a `None`
bearer token and for the fall-through-without-return exception path), updated
instance and environment, outbound requests issued, diagnostics printed. -/
structure TokenRes where
  ret : Option String
  clip : Clip
  env : Env
  calls : List HttpReq
  logs : List String
  deriving Repr, BEq

/-- The token validity date used by `get_bearer_token`: the parsed recorded
timestamp when one is set and truthy (non-empty), `datetime(2010, 1, 1)`
otherwise; `none` models the `ValueError` of `fromisoformat` on a malformed
timestamp. -/
def Clip.tokenDate (c : Clip) : Option TimeMs :=
  match c.token_timestamp with
  | some s => if s = "" then some date2010 else fromisoformat s
  | none => some date2010

/-- Translation of `Clip.get_bearer_token`: computes the token date (a missing
or empty recorded timestamp means `datetime(2010, 1, 1)`), refreshes when
`now - token_date >= timedelta(milliseconds=int(self.expires_in_time))`, and
returns `self.bearer_token`.  Any exception in the comparison (malformed
timestamp, non-integer lifetime) is caught, a diagnostic is printed and the
function falls through, returning Python `None`. -/
def Clip.get_bearer_token (now : TimeMs) (tr : Transport) (env : Env) (c : Clip) :
    TokenRes :=
  match c.tokenDate with
  | none => ⟨none, c, env, [], [errCompareMsg]⟩
  | some td =>
    match c.expires_in_time.pyInt with
    | .error _ => ⟨none, c, env, [], [errCompareMsg]⟩
    | .ok lifetime =>
      if (now : Int) - (td : Int) ≥ lifetime then
        let r := Clip.refresh_token now tr env c
        ⟨r.clip.bearer_token, r.clip, r.env, r.calls, r.logs⟩
      else
        ⟨c.bearer_token, c, env, [], []⟩

/-- A tabular result: column names plus row-major cells, a missing field of a
record being a missing cell. -/
structure Frame where
  columns : List String
  cells : List (List (Option Json))
  deriving Repr, BEq

/-- Column names of a list of records: field names in order of first
appearance. -/
def collectCols (rows : List (List (String × Json))) : List String :=
  rows.foldl
    (fun acc r => r.foldl (fun a kv => if a.contains kv.1 then a else a ++ [kv.1]) acc)
    []

/-- First value bound to a field name in a record, if any. -/
def lookupField (r : List (String × Json)) (k : String) : Option Json :=
  (r.find? (fun p => p.1 = k)).map (fun p => p.2)

/-- The record objects of a JSON array, when every element is an object. -/
def asRecords : List Json → Option (List (List (String × Json)))
  | [] => some []
  | .obj fs :: rest => (asRecords rest).map (fun rs => fs :: rs)
  | _ => none

/-- Modelled from documented pandas semantics for `pd.DataFrame` applied to a
list of record objects — the only shape the module's API contract exercises:
columns are field names in order of first appearance across the records, one
row per record in order, a missing field an empty cell.  Every other argument
shape is modelled as a construction failure (caught by the caller). -/
def pdDataFrame : Json → Except PyErr Frame
  | .arr xs =>
      match asRecords xs with
      | some rows =>
          let cols := collectCols rows
          .ok ⟨cols, rows.map (fun r => cols.map (fun k => lookupField r k))⟩
      | none => .error .valueError
  | _ => .error .valueError

/-- The twelve optional query fields of `Clip.lookup`, all defaulting to
Python `None`. -/
structure LookupArgs where
  legacy_county_source : Option String := none
  best_match : Option String := none
  google_fallback : Option String := none
  apn : Option String := none
  address : Option String := none
  city : Option String := none
  state : Option String := none
  zip_code : Option String := none
  latitude : Option String := none
  longitude : Option String := none
  owners : Option String := none
  clip : Option String := none

/-- The GET request `lookup` sends: the `Authorization` header interpolates
the token with Python f-string semantics (`None` renders as the text "None"),
and the params dict carries all twelve keys, absent fields as `None`. -/
def lookupReq (c : Clip) (tok : Option String) (a : LookupArgs) : HttpReq where
  method := "GET"
  url := c.clip_lookup_url ++ "/search"
  headers :=
    [("Authorization",
      some ("Bearer " ++ (match tok with | some s => s | none => "None")))]
  params :=
    [("legacyCountySource", a.legacy_county_source), ("bestMatch", a.best_match),
     ("googleFallback", a.google_fallback), ("apn", a.apn), ("address", a.address),
     ("city", a.city), ("state", a.state), ("zipCode", a.zip_code),
     ("latitude", a.latitude), ("longitude", a.longitude), ("owners", a.owners),
     ("clip", a.clip)]

/-- What `lookup` hands back: a DataFrame, a decoded JSON body, or Python
`None` from an implicit fall-through return. -/
inductive LookupOut where
  | frame (f : Frame)
  | json (j : Json)
  | pyNone
  deriving Repr, BEq

instance : BEq (Except PyErr LookupOut) where
  beq a b :=
    match a, b with
    | .ok x, .ok y => x == y
    | .error x, .error y => x == y
    | _, _ => false

/-- Result of `lookup`: `ret` is `Except.error e` exactly when an exception
escapes the function. -/
structure LookupRes where
  ret : Except PyErr LookupOut
  clip : Clip
  env : Env
  calls : List HttpReq
  logs : List String
  deriving Repr, BEq

/-- Translation of `Clip.lookup`.  The GET (whose header evaluation invokes
`get_bearer_token`, possibly refreshing) sits in a `try`/`except`; the
conversion branch has its own `try`/`except`, so with `convert` true a failed
GET leads to a caught `NameError` on the unbound local `response` and an
implicit `None` return, while the `convert=False` branch's
`return response.json()` is unprotected: there the `NameError` (failed GET) or
the decode error escapes the function. -/
def Clip.lookup (now : TimeMs) (tr : Transport) (env : Env) (c : Clip)
    (a : LookupArgs) (convert : Bool := true) : LookupRes :=
  let t := Clip.get_bearer_token now tr env c
  let req := lookupReq t.clip t.ret a
  let calls := t.calls ++ [req]
  match tr req with
  | .netError =>
      let logs := t.logs ++ [errGetMsg t.clip.clip_lookup_url]
      if convert then
        ⟨.ok .pyNone, t.clip, t.env, calls, logs ++ [errConvertMsg]⟩
      else
        ⟨.error .nameError, t.clip, t.env, calls, logs⟩
  | .resp body =>
      if convert then
        match body with
        | none => ⟨.ok .pyNone, t.clip, t.env, calls, t.logs ++ [errConvertMsg]⟩
        | some j =>
          match j.subscr "data" with
          | .error _ => ⟨.ok .pyNone, t.clip, t.env, calls, t.logs ++ [errConvertMsg]⟩
          | .ok d =>
            match pdDataFrame d with
            | .error _ => ⟨.ok .pyNone, t.clip, t.env, calls, t.logs ++ [errConvertMsg]⟩
            | .ok f => ⟨.ok (.frame f), t.clip, t.env, calls, t.logs⟩
      else
        match body with
        | none => ⟨.error .valueError, t.clip, t.env, calls, t.logs⟩
        | some j => ⟨.ok (.json j), t.clip, t.env, calls, t.logs⟩

/-! Concrete scenarios used by witnesses and counterexamples. -/

/-- A reference instant well after `date2010`. -/
def now0 : TimeMs := 1700000000000

/-- Transport on which every request raises. -/
def trNetErr : Transport := fun _ => .netError

/-- A successful token response: fresh token, 120 second lifetime. -/
def tokenBody1 : Json := .obj [("access_token", .str "tok1"), ("expires_in", .num 120)]

/-- Transport answering token POSTs with `tokenBody1` and failing GETs. -/
def trTokenOnly : Transport := fun req =>
  if req.method = "POST" then .resp (some tokenBody1) else .netError

/-- A client built from an empty environment with default arguments. -/
def c0 : Clip := (Clip.init [] {}).1

example : c0.bearer_token = none ∧ c0.expires_in_time = .num 300000 := ⟨rfl, rfl⟩

/-- Reading a key just written to the environment yields the written value. -/
lemma env_get_set_self (e : Env) (k v : String) : (e.set k v).get k = some v := by
  simp [Env.set, Env.get, List.find?_cons]

/-- Writing one key leaves every other key's reading unchanged. -/
lemma env_get_set_ne (e : Env) (k k' v : String) (h : k' ≠ k) :
    (e.set k v).get k' = e.get k' := by
  simp only [Env.set, Env.get, List.find?_cons]
  rw [decide_eq_false (fun hk => h hk.symm)]

/-- C1: the spec requires that a transport failure on the lookup GET never
raise past `lookup`, for either value of `convert`.  Evaluating the code at
the failing input `convert = false` with a failing transport: the `else`
branch's unprotected `return response.json()` raises `NameError` (the local
`response` was never bound) past the function boundary, while `convert = true`
swallows the same failure and yields `None` with diagnostics, as the spec
describes. -/
theorem clipC1_convert_false_transport_failure_raises :
    (Clip.lookup now0 trNetErr [] c0 {} false).ret = .error .nameError ∧
      (Clip.lookup now0 trNetErr [] c0 {} true).ret = .ok .pyNone ∧
      (Clip.lookup now0 trNetErr [] c0 {} true).logs ≠ [] := by
  refine ⟨rfl, rfl, ?_⟩
  decide

/-- C2: the spec claims a successful refresh records a fresh issuance
timestamp so that an immediately following `get_bearer_token` performs zero
further refreshes.  Evaluating the code: the first call refreshes and writes
the fresh timestamp to the environment, but `_refresh_token` never updates
`self.token_timestamp`, so the second call — at the very instant of the
refresh, elapsed time `0 <` the declared lifetime `120000` — issues one more
refresh POST instead of zero. -/
theorem clipC2_second_call_refreshes_again :
    (Clip.get_bearer_token now0 trTokenOnly [] c0).ret = some "tok1" ∧
      (Clip.get_bearer_token now0 trTokenOnly [] c0).env.get "__tokenTimestamp"
        = some (isoformat now0) ∧
      (Clip.get_bearer_token now0 trTokenOnly [] c0).clip.expires_in_time
        = .num 120000 ∧
      (Clip.get_bearer_token now0 trTokenOnly
          (Clip.get_bearer_token now0 trTokenOnly [] c0).env
          (Clip.get_bearer_token now0 trTokenOnly [] c0).clip).calls
        = [refreshReq (Clip.get_bearer_token now0 trTokenOnly [] c0).clip] := by
  exact ⟨rfl, rfl, rfl, rfl⟩

/-- Prior token state for the C3 scenario: a cached token and timestamp. -/
def env3 : Env :=
  [("__bearerToken", "old"), ("__tokenTimestamp", isoformat 100),
   ("__expiresInTime", "300000")]

/-- Client seeded from `env3`. -/
def c3 : Clip := (Clip.init env3 {}).1

/-- Transport whose token response carries a valid `access_token` but a
malformed `expires_in` (a JSON object, which Python cannot multiply by 1000). -/
def trBadExpires : Transport := fun _ =>
  .resp (some (.obj [("access_token", .str "new"), ("expires_in", .obj [("x", .num 1)])]))

/-- C3 counterexample: a token-refresh call that fails (it prints the
configure diagnostic, and neither the declared lifetime nor any instance
attribute is updated) yet does not leave the entire prior token state
untouched — the environment token value has already been overwritten from
"old" to "new" and the issuance timestamp refreshed, because the exception
is raised only at the `expires_in * 1000` step, after those writes. -/
theorem clipC3_counterexample :
    (Clip.refresh_token now0 trBadExpires env3 c3).logs = [errConfigureMsg] ∧
      env3.get "__bearerToken" = some "old" ∧
      (Clip.refresh_token now0 trBadExpires env3 c3).env.get "__bearerToken" = some "new" ∧
      (Clip.refresh_token now0 trBadExpires env3 c3).env.get "__tokenTimestamp"
        = some (isoformat now0) ∧
      env3.get "__tokenTimestamp" = some (isoformat 100) := by
  exact ⟨rfl, rfl, rfl, rfl, rfl⟩

/-- C3 amended: a failing refresh never raises and never touches any instance
attribute, issues exactly one POST, and retains the declared lifetime; the
environment is either fully untouched, or — when the failure arises while
processing `expires_in` after a valid `access_token` was stored — has exactly
the token value and issuance timestamp overwritten. -/
theorem clipC3_amended (now : TimeMs) (tr : Transport) (env : Env) (c : Clip)
    (h : (Clip.refresh_token now tr env c).logs ≠ []) :
    (Clip.refresh_token now tr env c).clip = c ∧
      (Clip.refresh_token now tr env c).calls = [refreshReq c] ∧
      (Clip.refresh_token now tr env c).env.get "__expiresInTime"
        = env.get "__expiresInTime" ∧
      ((Clip.refresh_token now tr env c).env = env ∨
        ∃ tok, (Clip.refresh_token now tr env c).env =
          (env.set "__bearerToken" tok).set "__tokenTimestamp" (isoformat now)) := by
  have hget : ∀ tok,
      ((env.set "__bearerToken" tok).set "__tokenTimestamp" (isoformat now)).get
          "__expiresInTime" = env.get "__expiresInTime" := by
    intro tok
    rw [env_get_set_ne _ _ _ _ (by decide), env_get_set_ne _ _ _ _ (by decide)]
  rcases htr : tr (refreshReq c) with _ | body
  · simp [Clip.refresh_token, htr]
  · rcases body with _ | j
    · simp [Clip.refresh_token, htr]
    · rcases hag : j.dictGet "access_token" with e | tokOpt
      · simp [Clip.refresh_token, htr, hag]
      · rcases tokOpt with _ | jt
        · simp [Clip.refresh_token, htr, hag]
        · rcases jt with _ | b | n | s | xs | fs
          case str =>
            rcases heo : j.dictGet "expires_in" with e2 | eiOpt
            · have hr : Clip.refresh_token now tr env c =
                  ⟨c, (env.set "__bearerToken" s).set "__tokenTimestamp" (isoformat now),
                    [refreshReq c], [errConfigureMsg]⟩ := by
                simp [Clip.refresh_token, htr, hag, heo]
              rw [hr]
              exact ⟨rfl, rfl, hget s, Or.inr ⟨s, rfl⟩⟩
            · rcases eiOpt with _ | ei
              · have hr : (Clip.refresh_token now tr env c).logs = [] := by
                  simp [Clip.refresh_token, htr, hag, heo]
                exact absurd hr h
              · rcases het : ei.truthy with _ | _
                · have hr : (Clip.refresh_token now tr env c).logs = [] := by
                    simp [Clip.refresh_token, htr, hag, heo, het]
                  exact absurd hr h
                · rcases hem : ei.pyMulThousand with e3 | v
                  · have hr : Clip.refresh_token now tr env c =
                        ⟨c, (env.set "__bearerToken" s).set "__tokenTimestamp"
                            (isoformat now),
                          [refreshReq c], [errConfigureMsg]⟩ := by
                      simp [Clip.refresh_token, htr, hag, heo, het, hem]
                    rw [hr]
                    exact ⟨rfl, rfl, hget s, Or.inr ⟨s, rfl⟩⟩
                  · have hr : (Clip.refresh_token now tr env c).logs = [] := by
                      simp [Clip.refresh_token, htr, hag, heo, het, hem]
                    exact absurd hr h
          all_goals simp [Clip.refresh_token, htr, hag]

/-- C3 amended, witnessed at a concrete input: with every request raising, the
refresh reports a failure and the amended conclusion holds with the
environment fully untouched. -/
theorem clipC3_amended_witness :
    (Clip.refresh_token now0 trNetErr [] c0).clip = c0 ∧
      (Clip.refresh_token now0 trNetErr [] c0).calls = [refreshReq c0] ∧
      (Clip.refresh_token now0 trNetErr [] c0).env.get "__expiresInTime"
        = Env.get [] "__expiresInTime" ∧
      ((Clip.refresh_token now0 trNetErr [] c0).env = ([] : Env) ∨
        ∃ tok, (Clip.refresh_token now0 trNetErr [] c0).env =
          ((Env.set [] "__bearerToken" tok).set "__tokenTimestamp" (isoformat now0))) :=
  clipC3_amended now0 trNetErr [] c0 (by decide)

/-- Every `_refresh_token` call issues exactly one outbound POST, namely the
token request, whatever the outcome. -/
lemma refresh_token_calls (now : TimeMs) (tr : Transport) (env : Env) (c : Clip) :
    (Clip.refresh_token now tr env c).calls = [refreshReq c] := by
  unfold Clip.refresh_token
  dsimp only
  repeat' split
  all_goals rfl

/-- Token cache state with a malformed recorded timestamp. -/
def env4bad : Env := [("__bearerToken", "tok"), ("__tokenTimestamp", "garbage")]

/-- Client seeded from `env4bad`: a cached token, an unparseable timestamp. -/
def c4bad : Clip := (Clip.init env4bad {}).1

/-- C4 counterexample: a state of the token cache (a recorded but malformed
issuance timestamp alongside a cached token) on which the claim's
"otherwise zero refreshes occur and the cached value is returned" fails — the
call indeed performs zero refreshes, but returns an absent value instead of
the cached token, because the date comparison raised and the function fell
through. -/
theorem clipC4_counterexample :
    (Clip.get_bearer_token now0 trNetErr env4bad c4bad).calls = [] ∧
      c4bad.bearer_token = some "tok" ∧
      (Clip.get_bearer_token now0 trNetErr env4bad c4bad).ret = none ∧
      (Clip.get_bearer_token now0 trNetErr env4bad c4bad).ret ≠ c4bad.bearer_token := by
  refine ⟨rfl, rfl, rfl, by decide⟩

/-- C4 amended: provided the comparison succeeds — the recorded timestamp (if
any, empty or missing meaning the 2010-01-01 default) parses to `td` and the
declared lifetime converts to the integer `L` — a get-token call triggers a
refresh iff `now - td ≥ L`; in that case exactly one refresh request is
issued and the post-refresh stored token value is returned, otherwise zero
requests are issued and the cached value is returned with all state
unchanged. -/
theorem clipC4_amended (now : TimeMs) (tr : Transport) (env : Env) (c : Clip)
    (td : TimeMs) (L : Int)
    (hts : c.tokenDate = some td) (hL : c.expires_in_time.pyInt = .ok L) :
    (((now : Int) - (td : Int) ≥ L) →
        (Clip.get_bearer_token now tr env c).calls = [refreshReq c] ∧
        (Clip.get_bearer_token now tr env c).ret
          = (Clip.refresh_token now tr env c).clip.bearer_token ∧
        (Clip.get_bearer_token now tr env c).clip
          = (Clip.refresh_token now tr env c).clip ∧
        (Clip.get_bearer_token now tr env c).env
          = (Clip.refresh_token now tr env c).env) ∧
      (¬((now : Int) - (td : Int) ≥ L) →
        (Clip.get_bearer_token now tr env c).calls = [] ∧
        (Clip.get_bearer_token now tr env c).ret = c.bearer_token ∧
        (Clip.get_bearer_token now tr env c).clip = c ∧
        (Clip.get_bearer_token now tr env c).env = env) := by
  have hr : Clip.get_bearer_token now tr env c =
      if (now : Int) - (td : Int) ≥ L then
        ⟨(Clip.refresh_token now tr env c).clip.bearer_token,
          (Clip.refresh_token now tr env c).clip,
          (Clip.refresh_token now tr env c).env,
          (Clip.refresh_token now tr env c).calls,
          (Clip.refresh_token now tr env c).logs⟩
      else ⟨c.bearer_token, c, env, [], []⟩ := by
    simp [Clip.get_bearer_token, hts, hL]
  constructor
  · intro hc
    rw [hr, if_pos hc]
    exact ⟨refresh_token_calls now tr env c, rfl, rfl, rfl⟩
  · intro hc
    rw [hr, if_neg hc]
    exact ⟨rfl, rfl, rfl, rfl⟩

/-- Fresh cached-token state for the C4 witness: issuance timestamp `now0`. -/
def env4 : Env := [("__bearerToken", "cached"), ("__tokenTimestamp", isoformat now0)]

/-- Client seeded from `env4`. -/
def c4 : Clip := (Clip.init env4 {}).1

/-- C4 amended, witnessed at a concrete input: a cached token issued at the
current instant, well within the default 300000 ms lifetime, is returned with
zero outbound requests. -/
theorem clipC4_amended_witness :
    (Clip.get_bearer_token now0 trNetErr env4 c4).calls = [] ∧
      (Clip.get_bearer_token now0 trNetErr env4 c4).ret = some "cached" := by
  have h := (clipC4_amended now0 trNetErr env4 c4 now0 300000 rfl rfl).2 (by decide)
  exact ⟨h.1, h.2.1.trans rfl⟩

/-- Transport whose token response reports a zero `expires_in`. -/
def trZeroExpires : Transport := fun _ =>
  .resp (some (.obj [("access_token", .str "abc"), ("expires_in", .num 0)]))

/-- C5 counterexample: a successful token response reporting
`expires_in = 0` seconds.  The claim requires the stored lifetime to become
`0 * 1000 = 0`; the code's truthiness test treats the reported `0` like an
absent field and retains the previous lifetime `300000`. -/
theorem clipC5_counterexample :
    (Clip.refresh_token now0 trZeroExpires [] c0).logs = [] ∧
      (Clip.refresh_token now0 trZeroExpires [] c0).clip.bearer_token = some "abc" ∧
      (Clip.refresh_token now0 trZeroExpires [] c0).clip.expires_in_time = .num 300000 ∧
      (Clip.refresh_token now0 trZeroExpires [] c0).env.get "__expiresInTime"
        = some "300000" ∧
      (Clip.refresh_token now0 trZeroExpires [] c0).clip.expires_in_time ≠ .num 0 ∧
      (Clip.refresh_token now0 trZeroExpires [] c0).env.get "__expiresInTime"
        ≠ some "0" := by
  refine ⟨rfl, rfl, rfl, rfl, ?_, by decide⟩
  intro h
  rw [show (Clip.refresh_token now0 trZeroExpires [] c0).clip.expires_in_time
      = Json.num 300000 from rfl] at h
  injection h with h'
  exact absurd h' (by decide)

/-- C5 amended: on a successful token response, the stored token becomes the
response's `access_token`; the stored lifetime becomes `expires_in * 1000`
when the server reports a truthy (in particular a nonzero integer)
`expires_in`, and is retained — also when the reported value is `0` or
`null`, not only when the field is absent. -/
theorem clipC5_amended (now : TimeMs) (tr : Transport) (env : Env) (c : Clip)
    (body : Json) (tok : String)
    (hb : tr (refreshReq c) = .resp (some body))
    (ha : body.dictGet "access_token" = .ok (some (.str tok))) :
    (∀ k : Int, body.dictGet "expires_in" = .ok (some (.num k)) → k ≠ 0 →
        (Clip.refresh_token now tr env c).logs = [] ∧
        (Clip.refresh_token now tr env c).clip.bearer_token = some tok ∧
        (Clip.refresh_token now tr env c).clip.expires_in_time = .num (k * 1000) ∧
        (Clip.refresh_token now tr env c).env.get "__expiresInTime"
          = some (toString (k * 1000))) ∧
      ((body.dictGet "expires_in" = .ok none ∨
          body.dictGet "expires_in" = .ok (some (.num 0)) ∨
          body.dictGet "expires_in" = .ok (some .null)) →
        (Clip.refresh_token now tr env c).logs = [] ∧
        (Clip.refresh_token now tr env c).clip.bearer_token = some tok ∧
        (Clip.refresh_token now tr env c).clip.expires_in_time = c.expires_in_time ∧
        (Clip.refresh_token now tr env c).env.get "__expiresInTime"
          = some c.expires_in_time.pyStr) := by
  constructor
  · intro k hk hk0
    have ht : (Json.num k).truthy = true := by simp [Json.truthy, hk0]
    have hr : Clip.refresh_token now tr env c =
        ⟨{ c with
            expires_in_time := .num (k * 1000)
            bearer_token :=
              ((((env.set "__bearerToken" tok).set "__tokenTimestamp"
                  (isoformat now)).set "__expiresInTime"
                  (Json.pyStr (.num (k * 1000))))).get "__bearerToken" },
          (((env.set "__bearerToken" tok).set "__tokenTimestamp"
              (isoformat now)).set "__expiresInTime" (Json.pyStr (.num (k * 1000)))),
          [refreshReq c], []⟩ := by
      simp [Clip.refresh_token, hb, ha, hk, ht, Json.pyMulThousand]
    rw [hr]
    refine ⟨rfl, ?_, rfl, ?_⟩
    · rw [env_get_set_ne _ _ _ _ (by decide), env_get_set_ne _ _ _ _ (by decide),
        env_get_set_self]
    · rw [env_get_set_self]
      rfl
  · intro hcase
    have key : Clip.refresh_token now tr env c =
        ⟨{ c with
             bearer_token :=
               (((env.set "__bearerToken" tok).set "__tokenTimestamp"
                   (isoformat now)).set "__expiresInTime"
                   c.expires_in_time.pyStr).get "__bearerToken" },
          ((env.set "__bearerToken" tok).set "__tokenTimestamp"
              (isoformat now)).set "__expiresInTime" c.expires_in_time.pyStr,
          [refreshReq c], []⟩ := by
      rcases hcase with hk | hk | hk
      · simp [Clip.refresh_token, hb, ha, hk]
      · simp [Clip.refresh_token, hb, ha, hk, Json.truthy]
      · simp [Clip.refresh_token, hb, ha, hk, Json.truthy]
    rw [key]
    refine ⟨rfl, ?_, rfl, ?_⟩
    · rw [env_get_set_ne _ _ _ _ (by decide), env_get_set_ne _ _ _ _ (by decide),
        env_get_set_self]
    · rw [env_get_set_self]

/-- Transport whose token response is the spec's concrete example. -/
def trToken120 : Transport := fun _ =>
  .resp (some (.obj [("access_token", .str "abc"), ("expires_in", .num 120)]))

/-- C5 amended, witnessed at the spec's concrete input: the response
`access_token = "abc"`, `expires_in = 120` yields stored token `"abc"` and
stored lifetime `120000` milliseconds. -/
theorem clipC5_amended_witness :
    (Clip.refresh_token now0 trToken120 [] c0).logs = [] ∧
      (Clip.refresh_token now0 trToken120 [] c0).clip.bearer_token = some "abc" ∧
      (Clip.refresh_token now0 trToken120 [] c0).clip.expires_in_time = .num 120000 ∧
      (Clip.refresh_token now0 trToken120 [] c0).env.get "__expiresInTime"
        = some "120000" := by
  have h := (clipC5_amended now0 trToken120 [] c0
      (.obj [("access_token", .str "abc"), ("expires_in", .num 120)]) "abc"
      rfl rfl).1 120 rfl (by decide)
  exact ⟨h.1, h.2.1, h.2.2.1, h.2.2.2⟩

/-- A pair is among the parameters sent on the wire iff the request's
parameter dict binds its key to exactly that present value. -/
lemma mem_sentParams (r : HttpReq) (k v : String) :
    (k, v) ∈ sentParams r ↔ (k, some v) ∈ r.params := by
  simp only [sentParams, List.mem_filterMap]
  constructor
  · rintro ⟨⟨a, b⟩, hm, hf⟩
    rcases b with _ | w
    · simp at hf
    · simp only [Option.map_some', Option.some.injEq, Prod.mk.injEq] at hf
      obtain ⟨rfl, rfl⟩ := hf
      exact hm
  · intro hm
    exact ⟨(k, some v), hm, rfl⟩

/-- C6: the wire-level query-parameter set of a lookup call contains exactly
the caller-supplied fields with their supplied values — present values
(including explicit empty strings) are sent under the twelve fixed camelCase
keys, absent fields are carried as `None` in the dict and omitted on the wire,
and no other key or invented default is ever sent; in particular the spec's
four-field example sends exactly those four parameters. -/
theorem clipC6_query_params (c : Clip) (tok : Option String) (a : LookupArgs) :
    (∀ k v : String,
        ((k, v) ∈ sentParams (lookupReq c tok a) ↔
          (k = "legacyCountySource" ∧ a.legacy_county_source = some v) ∨
          (k = "bestMatch" ∧ a.best_match = some v) ∨
          (k = "googleFallback" ∧ a.google_fallback = some v) ∨
          (k = "apn" ∧ a.apn = some v) ∨
          (k = "address" ∧ a.address = some v) ∨
          (k = "city" ∧ a.city = some v) ∨
          (k = "state" ∧ a.state = some v) ∨
          (k = "zipCode" ∧ a.zip_code = some v) ∨
          (k = "latitude" ∧ a.latitude = some v) ∨
          (k = "longitude" ∧ a.longitude = some v) ∨
          (k = "owners" ∧ a.owners = some v) ∨
          (k = "clip" ∧ a.clip = some v))) ∧
      sentParams (lookupReq c tok
          { address := some "501 Auburn Avenue NE", city := some "Atlanta",
            state := some "GA", zip_code := some "30312" })
        = [("address", "501 Auburn Avenue NE"), ("city", "Atlanta"),
           ("state", "GA"), ("zipCode", "30312")] := by
  refine ⟨?_, rfl⟩
  intro k v
  rw [mem_sentParams]
  simp [lookupReq, Prod.ext_iff, @eq_comm _ (some v)]

/-- Response body of the spec's conversion example. -/
def body7 : Json :=
  .obj [("data", .arr [.obj [("clip", .str "1")], .obj [("clip", .str "2")]])]

/-- Transport answering the token POST with `tokenBody1` and the lookup GET
with `body7`. -/
def tr7 : Transport := fun req =>
  if req.method = "POST" then .resp (some tokenBody1) else .resp (some body7)

/-- C7: on a successful lookup response (the GET returned a decodable body),
`convert = false` returns the raw decoded body unchanged whatever it is —
also when it is an error payload with no `data` field — and, whenever the
body's `data` field is an array of record objects, `convert = true` yields
the tabular structure whose rows are those records in order with field names
as column names. -/
theorem clipC7_convert (now : TimeMs) (tr : Transport) (env : Env) (c : Clip)
    (a : LookupArgs) (body : Json)
    (hb : tr (lookupReq (Clip.get_bearer_token now tr env c).clip
        (Clip.get_bearer_token now tr env c).ret a) = .resp (some body)) :
    (∀ (xs : List Json) (rows : List (List (String × Json))),
        body.subscr "data" = .ok (.arr xs) → asRecords xs = some rows →
        (Clip.lookup now tr env c a true).ret
          = .ok (.frame ⟨collectCols rows,
              rows.map (fun r => (collectCols rows).map (fun k => lookupField r k))⟩)) ∧
      (Clip.lookup now tr env c a false).ret = .ok (.json body) := by
  constructor
  · intro xs rows hd hrec
    simp [Clip.lookup, hb, hd, pdDataFrame, hrec]
  · simp [Clip.lookup, hb]

/-- An error payload carrying no `data` field. -/
def errBody7 : Json := .obj [("error", .str "unauthorized")]

/-- Transport answering the token POST with `tokenBody1` and the lookup GET
with the error payload `errBody7`. -/
def tr7err : Transport := fun req =>
  if req.method = "POST" then .resp (some tokenBody1) else .resp (some errBody7)

/-- C7 witnessed at concrete responses: the two-record `data` array becomes a
two-row table with a `clip` column holding "1" then "2" in order,
`convert = false` returns that body unchanged, and `convert = false` also
returns an error payload without a `data` field unchanged. -/
theorem clipC7_convert_witness :
    (Clip.lookup now0 tr7 [] c0 {} true).ret
      = .ok (.frame ⟨["clip"], [[some (.str "1")], [some (.str "2")]]⟩) ∧
      (Clip.lookup now0 tr7 [] c0 {} false).ret = .ok (.json body7) ∧
      (Clip.lookup now0 tr7err [] c0 {} false).ret = .ok (.json errBody7) := by
  have h1 := clipC7_convert now0 tr7 [] c0 {} body7 rfl
  have h2 := clipC7_convert now0 tr7err [] c0 {} errBody7 rfl
  exact ⟨h1.1 [.obj [("clip", .str "1")], .obj [("clip", .str "2")]]
    [[("clip", .str "1")], [("clip", .str "2")]] rfl rfl, h1.2, h2.2⟩

/-- C8: construction reads each of the four configuration values from its
environment variable when present and from the constructor argument (or its
built-in default) otherwise, seeds the token state from the environment with
the declared lifetime defaulting to the int 300000 milliseconds, and issues
no outbound request. -/
theorem clipC8_construction (env : Env) (a : InitArgs) :
    (Clip.init env a).2 = [] ∧
      (Clip.init env a).1.bearer_token = env.get "__bearerToken" ∧
      (Clip.init env a).1.token_timestamp = env.get "__tokenTimestamp" ∧
      (∀ v, env.get "__expiresInTime" = some v →
        (Clip.init env a).1.expires_in_time = .str v) ∧
      (env.get "__expiresInTime" = none →
        (Clip.init env a).1.expires_in_time = .num 300000) ∧
      (∀ v, env.get "tokenCredentials" = some v →
        (Clip.init env a).1.token_credentials = some v) ∧
      (env.get "tokenCredentials" = none →
        (Clip.init env a).1.token_credentials = a.token_credentials) ∧
      (∀ v, env.get "authorizationUrl" = some v →
        (Clip.init env a).1.authorization_url = v) ∧
      (env.get "authorizationUrl" = none →
        (Clip.init env a).1.authorization_url = a.authorization_url) ∧
      (∀ v, env.get "clipLookupUrl" = some v →
        (Clip.init env a).1.clip_lookup_url = v) ∧
      (env.get "clipLookupUrl" = none →
        (Clip.init env a).1.clip_lookup_url = a.clip_lookup_url) ∧
      (∀ v, env.get "clipBatchUrl" = some v →
        (Clip.init env a).1.clip_batch_url = v) ∧
      (env.get "clipBatchUrl" = none →
        (Clip.init env a).1.clip_batch_url = a.clip_batch_url) := by
  refine ⟨rfl, rfl, rfl, ?_, ?_, ?_, ?_, ?_, ?_, ?_, ?_, ?_, ?_⟩ <;>
    first
      | (intro v h; simp [Clip.init, h])
      | (intro h; simp [Clip.init, h])

/-- Environment for the C8 witness: some variables set, others absent. -/
def env8 : Env :=
  [("tokenCredentials", "cred"), ("__expiresInTime", "99"),
   ("clipLookupUrl", "http://lk")]

/-- C8 witnessed at a concrete environment: set variables win over arguments
and defaults, absent ones fall back, no request is issued. -/
theorem clipC8_construction_witness :
    (Clip.init env8 {}).2 = [] ∧
      (Clip.init env8 {}).1.bearer_token = none ∧
      (Clip.init env8 {}).1.expires_in_time = .str "99" ∧
      (Clip.init env8 {}).1.token_credentials = some "cred" ∧
      (Clip.init env8 {}).1.clip_lookup_url = "http://lk" ∧
      (Clip.init env8 {}).1.authorization_url =
        "https://api-uat.corelogic.com/edgemicro-auth-clip/token?grant_type=client_credentials" := by
  obtain ⟨h1, h2, -, h4, -, h6, -, -, h9, h10, -, -, -⟩ := clipC8_construction env8 {}
  exact ⟨h1, h2.trans rfl, h4 "99" rfl, h6 "cred" rfl, h10 "http://lk" rfl,
    (h9 rfl).trans rfl⟩

/-- C9: whenever the date comparison of `get_bearer_token` raises — the
recorded timestamp does not parse, or the declared lifetime is not an
integer — the exception is caught and reported, no refresh is triggered, all
state is left unchanged, and the function falls through returning an absent
value. -/
theorem clipC9_comparison_failure (now : TimeMs) (tr : Transport) (env : Env)
    (c : Clip)
    (h : c.tokenDate = none ∨ ∃ e, c.expires_in_time.pyInt = .error e) :
    Clip.get_bearer_token now tr env c = ⟨none, c, env, [], [errCompareMsg]⟩ := by
  rcases h with h | ⟨e, he⟩
  · simp [Clip.get_bearer_token, h]
  · rcases hts : c.tokenDate with _ | td
    · simp [Clip.get_bearer_token, hts]
    · simp [Clip.get_bearer_token, hts, he]

/-- Token cache with an unparseable recorded timestamp, for the C9 witness. -/
def env9 : Env := [("__bearerToken", "tok"), ("__tokenTimestamp", "not-a-date")]

/-- Client seeded from `env9`. -/
def c9 : Clip := (Clip.init env9 {}).1

/-- C9 witnessed at a concrete input: a malformed recorded timestamp makes
get-token report the comparison failure, perform zero requests and return an
absent value with state unchanged. -/
theorem clipC9_comparison_failure_witness :
    Clip.get_bearer_token now0 trNetErr env9 c9 = ⟨none, c9, env9, [], [errCompareMsg]⟩ :=
  clipC9_comparison_failure now0 trNetErr env9 c9 (Or.inl rfl)

/-- C10: whenever get-token yields no token, the lookup GET is still issued —
it is the final outbound request of the call — and its `Authorization` header
is the literal string "Bearer None" rendered by the f-string. -/
theorem clipC10_bearer_none (now : TimeMs) (tr : Transport) (env : Env)
    (c : Clip) (a : LookupArgs) (convert : Bool)
    (h : (Clip.get_bearer_token now tr env c).ret = none) :
    (Clip.lookup now tr env c a convert).calls
      = (Clip.get_bearer_token now tr env c).calls
        ++ [lookupReq (Clip.get_bearer_token now tr env c).clip none a] ∧
      (lookupReq (Clip.get_bearer_token now tr env c).clip none a).headers
        = [("Authorization", some "Bearer None")] := by
  constructor
  · have hc : (Clip.lookup now tr env c a convert).calls
        = (Clip.get_bearer_token now tr env c).calls
          ++ [lookupReq (Clip.get_bearer_token now tr env c).clip
              (Clip.get_bearer_token now tr env c).ret a] := by
      unfold Clip.lookup
      dsimp only
      repeat' split
      all_goals rfl
    rw [hc, h]
  · rfl

/-- C10 witnessed at a concrete input: with every request failing, the token
is absent and the lookup still issues its GET carrying "Bearer None". -/
theorem clipC10_bearer_none_witness :
    (Clip.lookup now0 trNetErr [] c0 {} true).calls
      = (Clip.get_bearer_token now0 trNetErr [] c0).calls
        ++ [lookupReq (Clip.get_bearer_token now0 trNetErr [] c0).clip none {}] ∧
      (lookupReq (Clip.get_bearer_token now0 trNetErr [] c0).clip none {}).headers
        = [("Authorization", some "Bearer None")] :=
  clipC10_bearer_none now0 trNetErr [] c0 {} true rfl

end ClipSpec
